import Mathlib

/-!
Verification of the SuperDash playout aggregator.

This file embeds the core logic of the repository in Lean 4:
timecode conversion (`server/server.js`, `server/osc-casparcg.js`),
the HyperDeck line-protocol state machine (`server/hyperdeck-client.js`),
the vMix poller, XML extraction and state normalisation
(`server/vmix-client.js`), the CasparCG OSC state normalisation
(`server/osc-casparcg.js`), the aggregator's device-state store
(`server/server.js`), and the Ember+ provider tree and update logic
(`server/emberplus-provider.js`).

JavaScript semantics are embedded explicitly:

* `Math.floor(a / b)` on integers is `Int.fdiv`; the JS `%` operator is
  the truncated remainder `jsRem` (sign of the dividend).
* Framerates are passed around as JS doubles in the source.  Every
  framerate of the supported set (24, 25, 29.97, 30, 50, 59.94, 60) is an
  exact multiple of 1/100, so `fps` is embedded as the exact integer
  `fps100 = 100 * fps` and each arithmetic expression of the source maps
  to the annotated exact-rational expression below.  At each supported
  framerate the results coincide with what the IEEE-754 doubles of the
  source produce (`Math.round(29.97*60) = 1798`, `Math.round(29.97*600) =
  17982`, `Math.round(59.94*60) = 3596`, `Math.round(59.94*600) = 35964`,
  checked against double rounding).
* JS string falsiness (`''` is falsy) is modelled by explicit emptiness
  tests.
-/

/-- JS `%` on integers: truncated remainder (sign of the dividend). -/
def jsRem (a b : Int) : Int := a - b * Int.tdiv a b

/-- JS `Math.floor(a / b)` for integer `a`, `b`: floor division. -/
def jsFloorDiv (a b : Int) : Int := Int.fdiv a b

/-- JS `Math.round(fps)` (round half toward positive infinity) for
`fps = fps100 / 100`: `floor(fps + 1/2) = floor((fps100 + 50) / 100)`. -/
def jsRoundFps (fps100 : Int) : Int := Int.fdiv (fps100 + 50) 100

/-- JS `Math.round(fps * mult)` for `fps = fps100 / 100`:
`floor(fps * mult + 1/2) = floor((fps100 * mult + 50) / 100)`. -/
def jsRoundFpsTimes (fps100 mult : Int) : Int :=
  Int.fdiv (fps100 * mult + 50) 100

/-- `pad2` from `server/server.js` lines 126-128 (and the identical
private copies in the vMix and CasparCG clients):
`n.toString().padStart(2, '0')`. -/
def pad2 (n : Int) : String :=
  let s := toString n
  if s.length < 2 then "0" ++ s else s

/-- The timecode string interpolation shared by both branches of
`framesToTimecode`: four `pad2` fields, `:` separators, and either `:` or
`;` before the frames field. -/
def mkTimecode (h m s f : Int) (sep : Char) : String :=
  pad2 h ++ ":" ++ pad2 m ++ ":" ++ pad2 s ++ String.singleton sep ++ pad2 f

/-- `requiresDropFrame` from `server/server.js` lines 65-68:
`Math.abs(fps - 29.97) < 0.01 || Math.abs(fps - 59.94) < 0.01`.
With `fps = fps100 / 100` exactly, `|fps - 29.97| < 0.01` is
`|fps100 - 2997| < 1`. -/
def requiresDropFrame (fps100 : Int) : Bool :=
  (fps100 - 2997).natAbs < 1 || (fps100 - 5994).natAbs < 1

/-- The non-drop branch of `framesToTimecode` (`server/server.js`
lines 107-118), with `R = Math.round(fps)` already computed. -/
def nonDropTimecode (n : Int) (R : Int) : String :=
  let frames := jsRem n R
  let totalSeconds := jsFloorDiv n R
  let seconds := jsRem totalSeconds 60
  let totalMinutes := jsFloorDiv totalSeconds 60
  let minutes := jsRem totalMinutes 60
  let hours := jsFloorDiv totalMinutes 60
  mkTimecode hours minutes seconds frames ':'

/-- The drop-frame branch of `framesToTimecode` (`server/server.js`
lines 81-106).  The in-place mutation of `remainingFrames` and `minutes`
inside the `if` is rendered functionally; `fps > 30` is
`fps100 > 3000`. -/
def dropFrameTimecode (n : Int) (fps100 : Int) : String :=
  let dropFrames : Int := if fps100 > 3000 then 4 else 2
  let framesPerMinute := jsRoundFpsTimes fps100 60 - dropFrames
  let framesPer10Minutes := jsRoundFpsTimes fps100 600 - dropFrames * 9
  let roundedFps := jsRoundFps fps100
  let tenMinuteBlocks := jsFloorDiv n framesPer10Minutes
  let remainingFrames0 := jsRem n framesPer10Minutes
  let minutes0 := tenMinuteBlocks * 10
  let p :=
    if remainingFrames0 ≥ roundedFps * 60 then
      let r := remainingFrames0 - roundedFps * 60
      (minutes0 + 1 + jsFloorDiv r framesPerMinute, jsRem r framesPerMinute)
    else (minutes0, remainingFrames0)
  let hours := jsFloorDiv p.1 60
  let minutes := jsRem p.1 60
  let seconds := jsFloorDiv p.2 roundedFps
  let frames := jsRem p.2 roundedFps
  mkTimecode hours minutes seconds frames ';'

/-- `framesToTimecode` from `server/server.js` lines 78-119.
Note: the server version does NOT clamp negative inputs. -/
def framesToTimecode (n : Int) (fps100 : Int) : String :=
  if requiresDropFrame fps100 then dropFrameTimecode n fps100
  else nonDropTimecode n (jsRoundFps fps100)

/-- `CasparCGClient._framesToTimecode` from `server/osc-casparcg.js`
lines 604-649: clamps negative inputs to zero, then runs a body that is
textually identical to `framesToTimecode` in `server/server.js`. -/
def casparFramesToTimecode (n : Int) (fps100 : Int) : String :=
  framesToTimecode (if n < 0 then 0 else n) fps100

/-- Numeric value of a decimal digit character. -/
def digitVal (c : Char) : Int := (c.toNat : Int) - 48

/-- Parses a string of shape `^\d\d:\d\d:\d\d[:;]\d\d$` into its four
two-digit fields (hours, minutes, seconds, frames); `none` when the
string does not match the pattern. -/
def parseTcAux : List Char → Option (Int × Int × Int × Int)
  | [h1, h2, c1, m1, m2, c2, s1, s2, c3, f1, f2] =>
    if h1.isDigit && h2.isDigit && c1 == ':' && m1.isDigit && m2.isDigit &&
        c2 == ':' && s1.isDigit && s2.isDigit && (c3 == ':' || c3 == ';') &&
        f1.isDigit && f2.isDigit then
      some (10 * digitVal h1 + digitVal h2, 10 * digitVal m1 + digitVal m2,
            10 * digitVal s1 + digitVal s2, 10 * digitVal f1 + digitVal f2)
    else none
  | _ => none

/-- Parses a string of shape `^\\d\\d:\\d\\d:\\d\\d[:;]\\d\\d$` into its four
two-digit fields via `parseTcAux` on the character list. -/
def parseTimecodeFields (s : String) : Option (Int × Int × Int × Int) :=
  parseTcAux s.data

/-- The spec's output pattern `^\d{2}:\d{2}:\d{2}[:;]\d{2}$`. -/
def matchesTimecodePattern (s : String) : Bool :=
  (parseTimecodeFields s).isSome

/-- Parses a timecode string and recombines the four fields as
`((hours*60+minutes)*60+seconds)*fps + frames`. -/
def parseTimecodeFrames (s : String) (R : Int) : Option Int :=
  match parseTimecodeFields s with
  | some (h, m, sec, f) => some (((h * 60 + m) * 60 + sec) * R + f)
  | none => none

example : framesToTimecode 3725 2500 = "00:02:29:00" := by decide
example : framesToTimecode 1800 2997 = "00:01:00;00" := by decide
example : framesToTimecode (-1) 2500 = "-1:-1:-1:-1" := by decide
example : casparFramesToTimecode (-1) 2500 = "00:00:00:00" := by decide
example : matchesTimecodePattern "00:01:00;02" = true := by decide
example : matchesTimecodePattern "-1:-1:-1:-1" = false := by decide
example : framesToTimecode 17964 2997 = "00:10:00;00" := by decide
example : framesToTimecode 1799 2997 = "00:00:59;29" := by decide


/-! ### String-level facts about `pad2` and the timecode pattern -/

theorem pad2_coe_data : ∀ m : Nat, m < 100 →
    (pad2 (m : Int)).data = [Nat.digitChar (m / 10), Nat.digitChar (m % 10)] := by
  decide

theorem digitChar_isDigit : ∀ d : Nat, d < 10 → (Nat.digitChar d).isDigit = true := by
  decide

theorem digitVal_digitChar : ∀ d : Nat, d < 10 → digitVal (Nat.digitChar d) = (d : Int) := by
  decide

/-- Parsing inverts `mkTimecode` whenever all four fields lie in `[0, 100)`
and the separator is `:` or `;`. -/
theorem parseTimecodeFields_mkTimecode (h m s f : Int) (sep : Char)
    (hh0 : 0 ≤ h) (hh : h < 100) (hm0 : 0 ≤ m) (hm : m < 100)
    (hs0 : 0 ≤ s) (hs : s < 100) (hf0 : 0 ≤ f) (hf : f < 100)
    (hsep : sep = ':' ∨ sep = ';') :
    parseTimecodeFields (mkTimecode h m s f sep) = some (h, m, s, f) := by
  obtain ⟨hn, rfl⟩ := Int.eq_ofNat_of_zero_le hh0
  obtain ⟨mn, rfl⟩ := Int.eq_ofNat_of_zero_le hm0
  obtain ⟨sn, rfl⟩ := Int.eq_ofNat_of_zero_le hs0
  obtain ⟨fn, rfl⟩ := Int.eq_ofNat_of_zero_le hf0
  have hh' : hn < 100 := by exact_mod_cast hh
  have hm' : mn < 100 := by exact_mod_cast hm
  have hs' : sn < 100 := by exact_mod_cast hs
  have hf' : fn < 100 := by exact_mod_cast hf
  have hdata : (mkTimecode (hn : Int) (mn : Int) (sn : Int) (fn : Int) sep).data =
      [Nat.digitChar (hn / 10), Nat.digitChar (hn % 10), ':',
       Nat.digitChar (mn / 10), Nat.digitChar (mn % 10), ':',
       Nat.digitChar (sn / 10), Nat.digitChar (sn % 10), sep,
       Nat.digitChar (fn / 10), Nat.digitChar (fn % 10)] := by
    simp [mkTimecode, String.data_append, pad2_coe_data _ hh',
      pad2_coe_data _ hm', pad2_coe_data _ hs', pad2_coe_data _ hf',
      String.singleton]
  show parseTcAux (mkTimecode (hn : Int) (mn : Int) (sn : Int) (fn : Int) sep).data
      = some ((hn : Int), (mn : Int), (sn : Int), (fn : Int))
  rw [hdata]
  have d1 := digitChar_isDigit (hn / 10) (by omega)
  have d2 := digitChar_isDigit (hn % 10) (by omega)
  have d3 := digitChar_isDigit (mn / 10) (by omega)
  have d4 := digitChar_isDigit (mn % 10) (by omega)
  have d5 := digitChar_isDigit (sn / 10) (by omega)
  have d6 := digitChar_isDigit (sn % 10) (by omega)
  have d7 := digitChar_isDigit (fn / 10) (by omega)
  have d8 := digitChar_isDigit (fn % 10) (by omega)
  have hsepb : (sep == ':' || sep == ';') = true := by
    rcases hsep with rfl | rfl <;> decide
  simp only [parseTcAux, d1, d2, d3, d4, d5, d6, d7, d8, hsepb, Bool.and_true,
    Bool.true_and, if_true]
  rw [digitVal_digitChar (hn / 10) (by omega), digitVal_digitChar (hn % 10) (by omega),
    digitVal_digitChar (mn / 10) (by omega), digitVal_digitChar (mn % 10) (by omega),
    digitVal_digitChar (sn / 10) (by omega), digitVal_digitChar (sn % 10) (by omega),
    digitVal_digitChar (fn / 10) (by omega), digitVal_digitChar (fn % 10) (by omega)]
  have e1 : 10 * ((hn / 10 : Nat) : Int) + ((hn % 10 : Nat) : Int) = (hn : Int) := by
    omega
  have e2 : 10 * ((mn / 10 : Nat) : Int) + ((mn % 10 : Nat) : Int) = (mn : Int) := by
    omega
  have e3 : 10 * ((sn / 10 : Nat) : Int) + ((sn % 10 : Nat) : Int) = (sn : Int) := by
    omega
  have e4 : 10 * ((fn / 10 : Nat) : Int) + ((fn % 10 : Nat) : Int) = (fn : Int) := by
    omega
  rw [e1, e2, e3, e4]
  simp

/-! ### Non-drop round trip -/

theorem jsRem_eq_emod (a b : Int) (ha : 0 ≤ a) (hb : 0 ≤ b) :
    jsRem a b = a % b := by
  unfold jsRem
  rw [Int.tdiv_eq_ediv ha hb, Int.emod_def]

theorem jsFloorDiv_eq_ediv (a b : Int) (hb : 0 ≤ b) :
    jsFloorDiv a b = a / b := Int.fdiv_eq_ediv a hb

/-- Core round-trip lemma for the non-drop branch: for an integral
framerate `0 < R ≤ 60` and a frame count below 24 hours, parsing the
produced string and recombining the fields recovers the frame count. -/
theorem nonDropTimecode_roundtrip (R n : Int) (hR : 0 < R) (hR60 : R ≤ 60)
    (hn0 : 0 ≤ n) (hn : n < 24 * 3600 * R) :
    parseTimecodeFrames (nonDropTimecode n R) R = some n := by
  have hR0 : (0 : Int) ≤ R := le_of_lt hR
  have hf0 : 0 ≤ n % R := Int.emod_nonneg n (ne_of_gt hR)
  have hfR : n % R < R := Int.emod_lt_of_pos n hR
  have hq0 : 0 ≤ n / R := Int.ediv_nonneg hn0 hR0
  have hkey : R * (n / R) + n % R = n := Int.ediv_add_emod n R
  have hq : n / R < 86400 := by
    rw [Int.ediv_lt_iff_lt_mul hR]
    linarith
  have hq60 : 0 ≤ (n / R) / 60 := Int.ediv_nonneg hq0 (by norm_num)
  have e1 : jsRem n R = n % R := jsRem_eq_emod n R hn0 hR0
  have e2 : jsFloorDiv n R = n / R := jsFloorDiv_eq_ediv n R hR0
  have e3 : jsRem (n / R) 60 = (n / R) % 60 :=
    jsRem_eq_emod _ _ hq0 (by norm_num)
  have e4 : jsFloorDiv (n / R) 60 = (n / R) / 60 :=
    jsFloorDiv_eq_ediv _ _ (by norm_num)
  have e5 : jsRem ((n / R) / 60) 60 = ((n / R) / 60) % 60 :=
    jsRem_eq_emod _ _ hq60 (by norm_num)
  have e6 : jsFloorDiv ((n / R) / 60) 60 = ((n / R) / 60) / 60 :=
    jsFloorDiv_eq_ediv _ _ (by norm_num)
  simp only [nonDropTimecode, e1, e2, e3, e4, e5, e6]
  unfold parseTimecodeFrames
  rw [parseTimecodeFields_mkTimecode _ _ _ _ _ (by omega) (by omega) (by omega)
    (by omega) (by omega) (by omega) (by omega) (by omega) (Or.inl rfl)]
  show some (((n / R / 60 / 60 * 60 + n / R / 60 % 60) * 60 + n / R % 60) * R + n % R)
      = some n
  have h60 : (n / R / 60 / 60 * 60 + n / R / 60 % 60) * 60 + n / R % 60 = n / R := by
    omega
  rw [h60, mul_comm (n / R) R, hkey]

theorem matchesTimecodePattern_mk (h m s f : Int) (sep : Char)
    (hh0 : 0 ≤ h) (hh : h < 100) (hm0 : 0 ≤ m) (hm : m < 100)
    (hs0 : 0 ≤ s) (hs : s < 100) (hf0 : 0 ≤ f) (hf : f < 100)
    (hsep : sep = ':' ∨ sep = ';') :
    matchesTimecodePattern (mkTimecode h m s f sep) = true := by
  unfold matchesTimecodePattern
  rw [parseTimecodeFields_mkTimecode h m s f sep hh0 hh hm0 hm hs0 hs hf0 hf hsep]
  rfl

theorem nonDropTimecode_pattern (R n : Int) (hR : 0 < R) (hR60 : R ≤ 60)
    (hn0 : 0 ≤ n) (hn : n < 24 * 3600 * R) :
    matchesTimecodePattern (nonDropTimecode n R) = true := by
  have h := nonDropTimecode_roundtrip R n hR hR60 hn0 hn
  unfold parseTimecodeFrames at h
  unfold matchesTimecodePattern
  cases hf : parseTimecodeFields (nonDropTimecode n R) with
  | none => rw [hf] at h; exact absurd h (by simp)
  | some x => simp

theorem dropFrame2997_pattern (n : Int) (hn0 : 0 ≤ n) (hn : n < 2592000) :
    matchesTimecodePattern (dropFrameTimecode n 2997) = true := by
  have h1 : jsRoundFpsTimes 2997 60 = 1798 := by decide
  have h2 : jsRoundFpsTimes 2997 600 = 17982 := by decide
  have h3 : jsRoundFps 2997 = 30 := by decide
  have e1 : jsFloorDiv n 17964 = n / 17964 := jsFloorDiv_eq_ediv _ _ (by norm_num)
  have e2 : jsRem n 17964 = n % 17964 := jsRem_eq_emod _ _ hn0 (by norm_num)
  have hb0 : 0 ≤ n % 17964 := Int.emod_nonneg n (by norm_num)
  have hblt : n % 17964 < 17964 := Int.emod_lt_of_pos n (by norm_num)
  have hq0 : 0 ≤ n / 17964 := Int.ediv_nonneg hn0 (by norm_num)
  have hqlt : n / 17964 ≤ 144 := by omega
  simp only [dropFrameTimecode, h1, h2, h3]
  norm_num
  simp only [e1, e2]
  split
  case isTrue hc =>
    have e3 : jsFloorDiv (n % 17964 - 1800) 1796 = (n % 17964 - 1800) / 1796 :=
      jsFloorDiv_eq_ediv _ _ (by norm_num)
    have e4 : jsRem (n % 17964 - 1800) 1796 = (n % 17964 - 1800) % 1796 :=
      jsRem_eq_emod _ _ (by omega) (by norm_num)
    have e5 : jsFloorDiv ((n % 17964 - 1800) % 1796) 30
        = ((n % 17964 - 1800) % 1796) / 30 := jsFloorDiv_eq_ediv _ _ (by norm_num)
    have e6 : jsRem ((n % 17964 - 1800) % 1796) 30
        = ((n % 17964 - 1800) % 1796) % 30 :=
      jsRem_eq_emod _ _ (Int.emod_nonneg _ (by norm_num)) (by norm_num)
    simp only [e3, e4, e5, e6]
    have p1lt : n / 17964 * 10 + 1 + (n % 17964 - 1800) / 1796 ≤ 1449 := by omega
    have e7 : jsFloorDiv (n / 17964 * 10 + 1 + (n % 17964 - 1800) / 1796) 60
        = (n / 17964 * 10 + 1 + (n % 17964 - 1800) / 1796) / 60 :=
      jsFloorDiv_eq_ediv _ _ (by norm_num)
    have e8 : jsRem (n / 17964 * 10 + 1 + (n % 17964 - 1800) / 1796) 60
        = (n / 17964 * 10 + 1 + (n % 17964 - 1800) / 1796) % 60 :=
      jsRem_eq_emod _ _ (by omega) (by norm_num)
    simp only [e7, e8]
    refine matchesTimecodePattern_mk _ _ _ _ _ ?_ ?_ ?_ ?_ ?_ ?_ ?_ ?_ (Or.inr rfl)
      <;> omega
  case isFalse hc =>
    have e5 : jsFloorDiv (n % 17964) 30 = (n % 17964) / 30 :=
      jsFloorDiv_eq_ediv _ _ (by norm_num)
    have e6 : jsRem (n % 17964) 30 = (n % 17964) % 30 :=
      jsRem_eq_emod _ _ hb0 (by norm_num)
    have e7 : jsFloorDiv (n / 17964 * 10) 60 = (n / 17964 * 10) / 60 :=
      jsFloorDiv_eq_ediv _ _ (by norm_num)
    have e8 : jsRem (n / 17964 * 10) 60 = (n / 17964 * 10) % 60 :=
      jsRem_eq_emod _ _ (by omega) (by norm_num)
    simp only [e5, e6, e7, e8]
    refine matchesTimecodePattern_mk _ _ _ _ _ ?_ ?_ ?_ ?_ ?_ ?_ ?_ ?_ (Or.inr rfl)
      <;> omega

theorem dropFrame5994_pattern (n : Int) (hn0 : 0 ≤ n) (hn : n < 5184000) :
    matchesTimecodePattern (dropFrameTimecode n 5994) = true := by
  have h1 : jsRoundFpsTimes 5994 60 = 3596 := by decide
  have h2 : jsRoundFpsTimes 5994 600 = 35964 := by decide
  have h3 : jsRoundFps 5994 = 60 := by decide
  have e1 : jsFloorDiv n 35928 = n / 35928 := jsFloorDiv_eq_ediv _ _ (by norm_num)
  have e2 : jsRem n 35928 = n % 35928 := jsRem_eq_emod _ _ hn0 (by norm_num)
  have hb0 : 0 ≤ n % 35928 := Int.emod_nonneg n (by norm_num)
  have hblt : n % 35928 < 35928 := Int.emod_lt_of_pos n (by norm_num)
  have hq0 : 0 ≤ n / 35928 := Int.ediv_nonneg hn0 (by norm_num)
  have hqlt : n / 35928 ≤ 144 := by omega
  simp only [dropFrameTimecode, h1, h2, h3]
  norm_num
  simp only [e1, e2]
  split
  case isTrue hc =>
    have e3 : jsFloorDiv (n % 35928 - 3600) 3592 = (n % 35928 - 3600) / 3592 :=
      jsFloorDiv_eq_ediv _ _ (by norm_num)
    have e4 : jsRem (n % 35928 - 3600) 3592 = (n % 35928 - 3600) % 3592 :=
      jsRem_eq_emod _ _ (by omega) (by norm_num)
    have e5 : jsFloorDiv ((n % 35928 - 3600) % 3592) 60
        = ((n % 35928 - 3600) % 3592) / 60 := jsFloorDiv_eq_ediv _ _ (by norm_num)
    have e6 : jsRem ((n % 35928 - 3600) % 3592) 60
        = ((n % 35928 - 3600) % 3592) % 60 :=
      jsRem_eq_emod _ _ (Int.emod_nonneg _ (by norm_num)) (by norm_num)
    simp only [e3, e4, e5, e6]
    have e7 : jsFloorDiv (n / 35928 * 10 + 1 + (n % 35928 - 3600) / 3592) 60
        = (n / 35928 * 10 + 1 + (n % 35928 - 3600) / 3592) / 60 :=
      jsFloorDiv_eq_ediv _ _ (by norm_num)
    have e8 : jsRem (n / 35928 * 10 + 1 + (n % 35928 - 3600) / 3592) 60
        = (n / 35928 * 10 + 1 + (n % 35928 - 3600) / 3592) % 60 :=
      jsRem_eq_emod _ _ (by omega) (by norm_num)
    simp only [e7, e8]
    refine matchesTimecodePattern_mk _ _ _ _ _ ?_ ?_ ?_ ?_ ?_ ?_ ?_ ?_ (Or.inr rfl)
      <;> omega
  case isFalse hc =>
    have e5 : jsFloorDiv (n % 35928) 60 = (n % 35928) / 60 :=
      jsFloorDiv_eq_ediv _ _ (by norm_num)
    have e6 : jsRem (n % 35928) 60 = (n % 35928) % 60 :=
      jsRem_eq_emod _ _ hb0 (by norm_num)
    have e7 : jsFloorDiv (n / 35928 * 10) 60 = (n / 35928 * 10) / 60 :=
      jsFloorDiv_eq_ediv _ _ (by norm_num)
    have e8 : jsRem (n / 35928 * 10) 60 = (n / 35928 * 10) % 60 :=
      jsRem_eq_emod _ _ (by omega) (by norm_num)
    simp only [e5, e6, e7, e8]
    refine matchesTimecodePattern_mk _ _ _ _ _ ?_ ?_ ?_ ?_ ?_ ?_ ?_ ?_ (Or.inr rfl)
      <;> omega

/-- Helper for C3: in the 24-hour range the server `framesToTimecode`
output matches the timecode pattern, for every supported framerate
(given in hundredths: 2400 = 24 fps, ..., 2997 = 29.97 fps). -/
theorem framesToTimecode_pattern_aux (fps100 : Int)
    (hfps : fps100 = 2400 ∨ fps100 = 2500 ∨ fps100 = 3000 ∨ fps100 = 5000 ∨
      fps100 = 6000 ∨ fps100 = 2997 ∨ fps100 = 5994)
    (n : Int) (hn0 : 0 ≤ n) (hn : n < 24 * 3600 * jsRoundFps fps100) :
    matchesTimecodePattern (framesToTimecode n fps100) = true := by
  rcases hfps with rfl | rfl | rfl | rfl | rfl | rfl | rfl
  · simp only [framesToTimecode]
    rw [if_neg (by decide)]
    exact nonDropTimecode_pattern _ n (by decide) (by decide) hn0 hn
  · simp only [framesToTimecode]
    rw [if_neg (by decide)]
    exact nonDropTimecode_pattern _ n (by decide) (by decide) hn0 hn
  · simp only [framesToTimecode]
    rw [if_neg (by decide)]
    exact nonDropTimecode_pattern _ n (by decide) (by decide) hn0 hn
  · simp only [framesToTimecode]
    rw [if_neg (by decide)]
    exact nonDropTimecode_pattern _ n (by decide) (by decide) hn0 hn
  · simp only [framesToTimecode]
    rw [if_neg (by decide)]
    exact nonDropTimecode_pattern _ n (by decide) (by decide) hn0 hn
  · simp only [framesToTimecode]
    rw [if_pos (by decide)]
    refine dropFrame2997_pattern n hn0 ?_
    rw [show jsRoundFps 2997 = 30 from by decide] at hn
    omega
  · simp only [framesToTimecode]
    rw [if_pos (by decide)]
    refine dropFrame5994_pattern n hn0 ?_
    rw [show jsRoundFps 5994 = 60 from by decide] at hn
    omega

/-- C2: at the first drop-frame minute boundary the code does NOT skip
the two dropped frame numbers: `framesToTimecode(1800, 29.97)` evaluates
to `"00:01:00;00"` (a frame label that drop-frame timecode drops), not to
the `"00:01:00;02"` the specification states.  `2997` is 29.97 fps in
hundredths. -/
theorem framesToTimecode_dropFrame_minute_boundary :
    framesToTimecode 1800 2997 = "00:01:00;00" ∧
    framesToTimecode 1800 2997 ≠ "00:01:00;02" := by
  decide

/-- C3 (counterexample): the server `framesToTimecode` does not clamp
negative inputs: at `totalFrames = -1`, `fps = 25` it returns
`"-1:-1:-1:-1"`, which violates the pattern and differs from the value at
zero. -/
theorem framesToTimecode_negative_not_clamped :
    framesToTimecode (-1) 2500 = "-1:-1:-1:-1" ∧
    matchesTimecodePattern (framesToTimecode (-1) 2500) = false ∧
    framesToTimecode (-1) 2500 ≠ framesToTimecode 0 2500 := by
  decide

/-- C3 (amended): both conversions are total functions by construction
(the JS bodies contain no `throw`).  For every supported framerate and
every `totalFrames` below 24 hours, the server `framesToTimecode` output
matches `^\d\d:\d\d:\d\d[:;]\d\d$` for non-negative inputs, and the
CasparCG `_framesToTimecode` (which clamps negatives to zero) matches the
pattern for every integer input below the bound, negative inputs
included.  The server version does not clamp, so for it the claim holds
only on non-negative inputs. -/
theorem framesToTimecode_pattern_in_range (fps100 : Int)
    (hfps : fps100 = 2400 ∨ fps100 = 2500 ∨ fps100 = 3000 ∨ fps100 = 5000 ∨
      fps100 = 6000 ∨ fps100 = 2997 ∨ fps100 = 5994) (n : Int) :
    (0 ≤ n → n < 24 * 3600 * jsRoundFps fps100 →
      matchesTimecodePattern (framesToTimecode n fps100) = true) ∧
    (n < 24 * 3600 * jsRoundFps fps100 →
      matchesTimecodePattern (casparFramesToTimecode n fps100) = true) := by
  refine ⟨fun hn0 hn => framesToTimecode_pattern_aux fps100 hfps n hn0 hn,
    fun hn => ?_⟩
  unfold casparFramesToTimecode
  by_cases hneg : n < 0
  · rw [if_pos hneg]
    exact framesToTimecode_pattern_aux fps100 hfps 0 le_rfl
      (by rcases hfps with rfl | rfl | rfl | rfl | rfl | rfl | rfl <;> decide)
  · rw [if_neg hneg]
    exact framesToTimecode_pattern_aux fps100 hfps n (by omega) hn

/-- Witness for C3: the amended theorem applied at fps 25, frames 3725
(server version) and at fps 25, frames -1 (CasparCG version). -/
theorem framesToTimecode_pattern_in_range_witness :
    matchesTimecodePattern (framesToTimecode 3725 2500) = true ∧
    matchesTimecodePattern (casparFramesToTimecode (-1) 2500) = true :=
  ⟨(framesToTimecode_pattern_in_range 2500 (Or.inr (Or.inl rfl)) 3725).1
      (by decide) (by decide),
   (framesToTimecode_pattern_in_range 2500 (Or.inr (Or.inl rfl)) (-1)).2
      (by decide)⟩

/-- C5: for every non-drop framerate in 24, 25, 30, 50, 60 fps (given in
hundredths) and every `totalFrames` in `[0, 24*3600*fps)`, parsing the
four two-digit fields of `framesToTimecode(totalFrames, fps)` back as
hours, minutes, seconds, frames and recombining them as
`((hours*60+minutes)*60+seconds)*fps + frames` yields `totalFrames`. -/
theorem framesToTimecode_roundtrip (fps100 : Int)
    (hfps : fps100 = 2400 ∨ fps100 = 2500 ∨ fps100 = 3000 ∨ fps100 = 5000 ∨
      fps100 = 6000)
    (n : Int) (hn0 : 0 ≤ n) (hn : n < 24 * 3600 * jsRoundFps fps100) :
    parseTimecodeFrames (framesToTimecode n fps100) (jsRoundFps fps100)
      = some n := by
  rcases hfps with rfl | rfl | rfl | rfl | rfl <;>
    (simp only [framesToTimecode]
     rw [if_neg (by decide)]
     exact nonDropTimecode_roundtrip _ n (by decide) (by decide) hn0 hn)

/-- Witness for C5: the round trip evaluated at fps 25, frames 3725. -/
theorem framesToTimecode_roundtrip_witness :
    parseTimecodeFrames (framesToTimecode 3725 2500) (jsRoundFps 2500)
      = some 3725 :=
  framesToTimecode_roundtrip 2500 (Or.inr (Or.inl rfl)) 3725
    (by decide) (by decide)

/-! ### Aggregator device-state store (`server/server.js`) -/

/-- The normalised playback state enumeration `stop | play | rec |
offline` of the device model (the constructor for the `'rec'` string is
spelled `rec'` because `rec` is reserved for the recursor). -/
inductive PlayState : Type where
  | stop : PlayState
  | play : PlayState
  | rec' : PlayState
  | offline : PlayState
deriving DecidableEq, Repr

/-- The mutable fields of a `DeviceState` entry of the aggregator's store
(`server/server.js` lines 166-178).  The identity fields copied verbatim
from the configuration (`id`, `name`, `type`, `ip`, `port`, `framerate`)
and the monotonic `updated` timestamp are never read by the logic the
claims are about and are omitted. -/
structure AggDeviceState : Type where
  state : PlayState
  timecode : String
  filename : String
  connected : Bool
deriving DecidableEq, Repr

/-- The initial store entry built from the configuration
(`server/server.js` lines 166-178): `state: 'offline'`,
`timecode: '00:00:00:00'`, `filename: ''`, `connected: false`. -/
def initialDeviceState : AggDeviceState :=
  { state := PlayState.offline, timecode := "00:00:00:00", filename := "",
    connected := false }

/-- One event delivered by a protocol client to the aggregator
(`initialiseClients`, `server/server.js` lines 228-299): a `state`
event carrying the normalised triple, a `connected` event, or a
`disconnected` event. -/
inductive ClientEvent : Type where
  | stateEv (s : PlayState) (tc fn : String) : ClientEvent
  | connectedEv : ClientEvent
  | disconnectedEv : ClientEvent
deriving DecidableEq, Repr

/-- The aggregator's event handlers (`server/server.js`):
`state` (lines 228-237) overwrites the triple and sets `connected: true`;
`connected` (lines 259-266) sets only `connected: true`, leaving `state`
untouched; `disconnected` (lines 274-282) forces `state: 'offline'` and
`connected: false`. -/
def applyClientEvent (d : AggDeviceState) : ClientEvent → AggDeviceState
  | ClientEvent.stateEv s tc fn =>
    { state := s, timecode := tc, filename := fn, connected := true }
  | ClientEvent.connectedEv => { d with connected := true }
  | ClientEvent.disconnectedEv =>
    { d with state := PlayState.offline, connected := false }

/-- Applies a sequence of client events to a store entry. -/
def runClientEvents (d : AggDeviceState) (es : List ClientEvent) :
    AggDeviceState :=
  es.foldl applyClientEvent d

/-- C1 (counterexample): the claimed invariant fails at a reachable
state.  A `connected` event on a fresh device (which every protocol
client emits before its first `state` event) sets `connected: true` while
`state` is still `'offline'`. -/
theorem offline_invariant_counterexample :
    (runClientEvents initialDeviceState [ClientEvent.connectedEv]).state
        = PlayState.offline ∧
    (runClientEvents initialDeviceState [ClientEvent.connectedEv]).connected
        = true := by
  decide

/-- C1 (amended): for every sequence of client events the store maintains
the converse invariant `connected == false ⇒ state == 'offline'`.  The
direction stated in the spec (`state == 'offline' ⇒ connected == false`)
fails exactly in the window between a client's `connected` event and its
first subsequent `state` or `disconnected` event, where `state` is still
`'offline'` but `connected` is already `true`. -/
theorem aggregator_disconnected_implies_offline (es : List ClientEvent)
    (h : (runClientEvents initialDeviceState es).connected = false) :
    (runClientEvents initialDeviceState es).state = PlayState.offline := by
  suffices hgen : ∀ d : AggDeviceState,
      (d.connected = false → d.state = PlayState.offline) →
      ((runClientEvents d es).connected = false →
        (runClientEvents d es).state = PlayState.offline) from
    hgen initialDeviceState (fun _ => rfl) h
  clear h
  induction es with
  | nil => intro d hd; exact hd
  | cons e t ih =>
    intro d hd
    show (runClientEvents (applyClientEvent d e) t).connected = false →
      (runClientEvents (applyClientEvent d e) t).state = PlayState.offline
    refine ih (applyClientEvent d e) ?_
    cases e with
    | stateEv s tc fn => intro hc; exact absurd hc (by simp [applyClientEvent])
    | connectedEv => intro hc; exact absurd hc (by simp [applyClientEvent])
    | disconnectedEv => intro _; rfl

/-- Witness for C1's amended theorem: after a `disconnected` event the
device is disconnected, and the theorem yields `state = offline`. -/
theorem aggregator_disconnected_implies_offline_witness :
    (runClientEvents initialDeviceState [ClientEvent.disconnectedEv]).connected
        = false ∧
    (runClientEvents initialDeviceState [ClientEvent.disconnectedEv]).state
        = PlayState.offline :=
  ⟨by decide, aggregator_disconnected_implies_offline
    [ClientEvent.disconnectedEv] (by decide)⟩

/-! ### vMix poll failure handling (`server/vmix-client.js` `_poll`) -/

/-- The normalised `{state, timecode, filename}` triple emitted by the
protocol clients. -/
structure NormalisedState : Type where
  state : PlayState
  timecode : String
  filename : String
deriving DecidableEq, Repr

/-- Events emitted by the vMix client. -/
inductive VMixEvent : Type where
  | evConnected : VMixEvent
  | evDisconnected : VMixEvent
  | evState (s : NormalisedState) : VMixEvent
  | evError : VMixEvent
deriving DecidableEq, Repr

/-- The fields of `VMixClient` that `_poll` reads and writes:
`_isConnected`, `_consecutiveFailures`, `_lastGoodState`
(`server/vmix-client.js` lines 114-127; `_maxConsecutiveFailures` is the
constant 3). -/
structure VMixPollState : Type where
  isConnected : Bool
  consecutiveFailures : Nat
  lastGoodState : Option NormalisedState
deriving DecidableEq, Repr

/-- Outcome of one poll: the fetch/parse/normalise pipeline either yields
a normalised state or throws (HTTP error, timeout, malformed XML). -/
inductive PollResult : Type where
  | ok (s : NormalisedState) : PollResult
  | fail : PollResult

/-- One execution of `_poll` (`server/vmix-client.js` lines 201-244),
returning the successor state and the list of events emitted, in
emission order.  On success: reset the failure counter, emit `connected`
if not yet connected, cache and emit the state.  On failure: increment
the counter, emit `error`; if connected and the counter reached 3, clear
the connected flag and emit `disconnected`; if a cached state exists and
the counter is below 3, re-emit the cached state. -/
def applyPoll (st : VMixPollState) : PollResult → VMixPollState × List VMixEvent
  | PollResult.ok s =>
    let connEvs := if st.isConnected then [] else [VMixEvent.evConnected]
    (⟨true, 0, some s⟩, connEvs ++ [VMixEvent.evState s])
  | PollResult.fail =>
    let f := st.consecutiveFailures + 1
    let disc := st.isConnected && decide (3 ≤ f)
    let cacheEvs :=
      match st.lastGoodState with
      | some s => if f < 3 then [VMixEvent.evState s] else []
      | none => []
    (⟨if disc then false else st.isConnected, f, st.lastGoodState⟩,
     [VMixEvent.evError] ++ (if disc then [VMixEvent.evDisconnected] else [])
       ++ cacheEvs)

/-- Runs `k` consecutive failing polls, collecting all emitted events. -/
def runFailures (st : VMixPollState) : Nat → VMixPollState × List VMixEvent
  | 0 => (st, [])
  | Nat.succ k =>
    let p := applyPoll st PollResult.fail
    let q := runFailures p.1 k
    (q.1, p.2 ++ q.2)

/-- Number of `disconnected` events in an emission list. -/
def countDisconnects : List VMixEvent → Nat
  | [] => 0
  | VMixEvent.evDisconnected :: t => countDisconnects t + 1
  | _ :: t => countDisconnects t

theorem countDisconnects_append (a b : List VMixEvent) :
    countDisconnects (a ++ b) = countDisconnects a + countDisconnects b := by
  induction a with
  | nil => simp [countDisconnects]
  | cons e t ih =>
    cases e <;> simp [countDisconnects, ih]
    omega

/-- Once the client is marked disconnected, further failing polls never
emit another `disconnected` event. -/
theorem runFailures_stay_disconnected (k : Nat) :
    ∀ st : VMixPollState, st.isConnected = false →
      countDisconnects (runFailures st k).2 = 0 := by
  induction k with
  | zero => intro st _; rfl
  | succ k ih =>
    intro st h
    show countDisconnects ((applyPoll st PollResult.fail).2
      ++ (runFailures (applyPoll st PollResult.fail).1 k).2) = 0
    rw [countDisconnects_append]
    have h1 : (applyPoll st PollResult.fail).1.isConnected = false := by
      simp [applyPoll, h]
    rw [ih _ h1]
    cases hlg : st.lastGoodState with
    | none => simp [applyPoll, h, hlg, countDisconnects]
    | some s =>
      by_cases hf : st.consecutiveFailures + 1 < 3 <;>
        simp [applyPoll, h, hlg, hf, countDisconnects]

/-- C6: from a connected client with a clean failure counter (the state
after any successful poll), a run of `k` consecutive poll failures emits
exactly one `disconnected` event when `k ≥ 3` and none before — the
event fires on the third consecutive failure; and a successful poll from
ANY state — in particular after one or two transient failures —
resets the consecutive-failure counter to zero. -/
theorem vmix_disconnect_after_three_failures (st : VMixPollState)
    (hconn : st.isConnected = true) (hfail : st.consecutiveFailures = 0) :
    (∀ k : Nat,
      countDisconnects (runFailures st k).2 = if 3 ≤ k then 1 else 0) ∧
    (∀ (st' : VMixPollState) (s : NormalisedState),
      (applyPoll st' (PollResult.ok s)).1.consecutiveFailures = 0) := by
  obtain ⟨c, f, lg⟩ := st
  dsimp at hconn hfail
  subst hconn hfail
  refine ⟨fun k => ?_, fun st' s => rfl⟩
  match k with
  | 0 => simp [runFailures, countDisconnects]
  | 1 =>
    cases lg with
    | none => simp [runFailures, applyPoll, countDisconnects]
    | some s => simp [runFailures, applyPoll, countDisconnects]
  | 2 =>
    cases lg with
    | none => simp [runFailures, applyPoll, countDisconnects]
    | some s => simp [runFailures, applyPoll, countDisconnects]
  | (k' + 3) =>
    have hif : (if 3 ≤ k' + 3 then 1 else 0) = 1 := by simp
    rw [hif]
    show countDisconnects (runFailures ⟨true, 0, lg⟩ (k' + 3)).2 = 1
    have hsplit : runFailures (⟨true, 0, lg⟩ : VMixPollState) (k' + 3) =
        let p1 := applyPoll ⟨true, 0, lg⟩ PollResult.fail
        let p2 := applyPoll p1.1 PollResult.fail
        let p3 := applyPoll p2.1 PollResult.fail
        let q := runFailures p3.1 k'
        (q.1, p1.2 ++ (p2.2 ++ (p3.2 ++ q.2))) := rfl
    rw [hsplit]
    have s1 : applyPoll (⟨true, 0, lg⟩ : VMixPollState) PollResult.fail
        = (⟨true, 1, lg⟩, [VMixEvent.evError] ++ []
            ++ (match lg with
                | some s => [VMixEvent.evState s]
                | none => [])) := by
      cases lg <;> simp [applyPoll]
    have s2 : applyPoll (⟨true, 1, lg⟩ : VMixPollState) PollResult.fail
        = (⟨true, 2, lg⟩, [VMixEvent.evError] ++ []
            ++ (match lg with
                | some s => [VMixEvent.evState s]
                | none => [])) := by
      cases lg <;> simp [applyPoll]
    have s3 : applyPoll (⟨true, 2, lg⟩ : VMixPollState) PollResult.fail
        = (⟨false, 3, lg⟩, [VMixEvent.evError]
            ++ [VMixEvent.evDisconnected] ++ []) := by
      cases lg <;> simp [applyPoll]
    simp only [s1, s2, s3]
    have hrest := runFailures_stay_disconnected k' ⟨false, 3, lg⟩ rfl
    cases lg <;> simp [countDisconnects_append, countDisconnects, hrest]

/-- Witness for C6: a connected client with counter zero and no cached
state emits exactly one `disconnected` across three consecutive
failures; and a success from a state with two accumulated failures
resets the counter to zero. -/
theorem vmix_disconnect_after_three_failures_witness :
    countDisconnects (runFailures ⟨true, 0, none⟩ 3).2
        = (if 3 ≤ 3 then 1 else 0) ∧
    (applyPoll ⟨true, 2, none⟩
        (PollResult.ok ⟨PlayState.play, "00:00:00:00", ""⟩)).1.consecutiveFailures
      = 0 :=
  ⟨(vmix_disconnect_after_three_failures ⟨true, 0, none⟩ rfl rfl).1 3,
   (vmix_disconnect_after_three_failures ⟨true, 0, none⟩ rfl rfl).2
     ⟨true, 2, none⟩ ⟨PlayState.play, "00:00:00:00", ""⟩⟩

/-! ### vMix XML extraction (`server/vmix-client.js` `_parseXml`) -/

/-- JS regex `\s` on the ASCII range (the inputs handled here are ASCII;
the Unicode white-space code points JS also accepts are omitted). -/
def isJsSpace (c : Char) : Bool :=
  c == ' ' || c == '\t' || c == '\n' || c == '\r' || c == '\x0b' || c == '\x0c'

/-- Case-insensitive prefix match: when `pat` (given lowercase-insensitively)
is a prefix of `l`, returns the rest of `l`. -/
def ciPrefixRest : List Char → List Char → Option (List Char)
  | [], l => some l
  | _ :: _, [] => none
  | p :: ps, c :: cs =>
    if p.toLower == c.toLower then ciPrefixRest ps cs else none

/-- `pat.test(l)` for a case-insensitive literal pattern: does `pat`
occur in `l`? -/
def containsCi (pat : List Char) : List Char → Bool
  | [] => (ciPrefixRest pat []).isSome
  | l@(_ :: rest) => (ciPrefixRest pat l).isSome || containsCi pat rest

/-- First match of the regex `pre([^stop]*)post` (`pre` and `post`
matched case-insensitively, as with the `/i` flag): scans left to right;
at the first position where `pre` matches, captures maximally up to
`stop`, and requires `post` immediately after.  Because `post` begins
with `stop` in every use below, the maximal capture is the only
candidate, exactly as for the backtracking regex. -/
def scanCapture (pre : List Char) (stop : Char) (post : List Char) :
    List Char → Option (List Char)
  | [] => none
  | l@(_ :: rest) =>
    match ciPrefixRest pre l with
    | some r =>
      let cap := r.takeWhile (fun c => !(c == stop))
      let r2 := r.drop cap.length
      match ciPrefixRest post r2 with
      | some _ => some cap
      | none => scanCapture pre stop post rest
    | none => scanCapture pre stop post rest

/-- One attempt of the regex `<input\s+[^>]*>` at the head of `l`
(case-insensitive): on success returns the matched token and the
remainder after the closing `>`. -/
def matchInputAt (l : List Char) : Option (List Char × List Char) :=
  match ciPrefixRest ['<', 'i', 'n', 'p', 'u', 't'] l with
  | some (c :: r) =>
    if isJsSpace c then
      let body := (c :: r).takeWhile (fun x => !(x == '>'))
      match (c :: r).drop body.length with
      | '>' :: r2 => some (l.take 6 ++ body ++ ['>'], r2)
      | _ => none
    else none
  | _ => none

/-- All matches of the global regex `<input\s+[^>]*>/gi`, scanning left
to right and resuming after each match.  The fuel argument is the length
of the list; every step consumes at least one character, so the fuel
never runs out before the scan completes. -/
def scanInputsAux : Nat → List Char → List (List Char)
  | 0, _ => []
  | _ + 1, [] => []
  | fuel + 1, l@(_ :: rest) =>
    match matchInputAt l with
    | some (tok, remaining) => tok :: scanInputsAux fuel remaining
    | none => scanInputsAux fuel rest

def scanInputs (l : List Char) : List (List Char) :=
  scanInputsAux l.length l

/-- First capture of the regex `name="([^"]*)"/i` inside an input token
(used for the `state` and `title` attributes). -/
def attrCapture (name : List Char) (tok : List Char) : Option (List Char) :=
  scanCapture (name ++ ['=', '"']) '"' ['"'] tok

/-- JS `parseInt(s, 10)`: skip leading whitespace, optional sign, then
the maximal run of decimal digits; `none` models `NaN`. -/
def jsParseInt (s : String) : Option Int :=
  let l := s.data.dropWhile isJsSpace
  let p : Bool × List Char :=
    match l with
    | '-' :: t => (true, t)
    | '+' :: t => (false, t)
    | _ => (false, l)
  let ds := p.2.takeWhile Char.isDigit
  if ds.isEmpty then none
  else
    let v := ds.foldl (fun acc c => 10 * acc + digitVal c) 0
    some (if p.1 then -v else v)

example : jsParseInt "60000" = some 60000 := by decide
example : jsParseInt " -42x" = some (-42) := by decide
example : jsParseInt "x" = none := by decide

/-- The `VMixRawState` produced by `_parseXml`
(`server/vmix-client.js` lines 372-378). -/
structure VMixRawState : Type where
  recording : Bool
  streaming : Bool
  duration : Int
  activeInputTitle : Option String
  activeInputState : Option String
deriving DecidableEq, Repr

/-- The input-scanning loop of `_parseXml` (lines 354-370): the first
input token whose `state` attribute is `Running` or `Paused`
(case-sensitive comparison) provides `(activeInputTitle,
activeInputState)`; a missing `title` attribute yields `'Unknown'`. -/
def findActiveInput : List (List Char) → Option (String × String)
  | [] => none
  | tok :: rest =>
    match attrCapture ['s', 't', 'a', 't', 'e'] tok with
    | some st =>
      let stStr := String.mk st
      if stStr == "Running" || stStr == "Paused" then
        let title :=
          match attrCapture ['t', 'i', 't', 'l', 'e'] tok with
          | some t => String.mk t
          | none => "Unknown"
        some (title, stStr)
      else findActiveInput rest
    | none => findActiveInput rest

/-- `VMixClient._parseXml` (`server/vmix-client.js` lines 314-379).
Empty body or missing `<vmix` root raise; `<recording>` and
`<streaming>` compare their lowercased content to `'true'`;
`<duration>` is `parseInt(..., 10) || 0`; the first active input is
found by `findActiveInput`. -/
def vmixParseXml (xml : String) : Except String VMixRawState :=
  if xml = "" then
    Except.error "Invalid XML response: empty or not a string"
  else if !(containsCi ['<', 'v', 'm', 'i', 'x'] xml.data) then
    Except.error "Invalid XML response: missing vmix root element"
  else
    let recording :=
      match scanCapture "<recording>".data '<' "</recording>".data xml.data with
      | some cap => String.mk (cap.map Char.toLower) == "true"
      | none => false
    let streaming :=
      match scanCapture "<streaming>".data '<' "</streaming>".data xml.data with
      | some cap => String.mk (cap.map Char.toLower) == "true"
      | none => false
    let duration :=
      match scanCapture "<duration>".data '<' "</duration>".data xml.data with
      | some cap => (jsParseInt (String.mk cap)).getD 0
      | none => 0
    let act := findActiveInput (scanInputs xml.data)
    Except.ok
      { recording := recording, streaming := streaming, duration := duration,
        activeInputTitle := act.map Prod.fst,
        activeInputState := act.map Prod.snd }

/-- `VMixClient._millisecondsToTimecode` (`server/vmix-client.js` lines
432-451): `!ms || ms < 0` yields `'00:00:00:00'`; otherwise
`totalFrames = Math.floor(ms * framerate / 1000)` (with
`framerate = framerate100 / 100` exactly, this is
`(ms * framerate100) fdiv 100000`) followed by a body textually
identical to the non-drop branch of `framesToTimecode` with
`fps = Math.round(framerate)`. -/
def vmixMillisecondsToTimecode (ms : Int) (framerate100 : Int) : String :=
  if ms == 0 || ms < 0 then "00:00:00:00"
  else
    nonDropTimecode (jsFloorDiv (ms * framerate100) 100000)
      (jsRoundFps framerate100)

/-- JS `o || dflt` on a nullable string: `null` and `''` are falsy. -/
def jsOrStr (o : Option String) (dflt : String) : String :=
  match o with
  | some t => if t == "" then dflt else t
  | none => dflt

/-- `VMixClient._normaliseState` (`server/vmix-client.js` lines
393-419): priority recording > running > paused > stop. -/
def vmixNormaliseState (raw : VMixRawState) (framerate100 : Int) :
    NormalisedState :=
  let p : PlayState × String :=
    if raw.recording then
      (PlayState.rec', jsOrStr raw.activeInputTitle "Recording")
    else if raw.activeInputState == some "Running" then
      (PlayState.play, jsOrStr raw.activeInputTitle "")
    else if raw.activeInputState == some "Paused" then
      (PlayState.stop, jsOrStr raw.activeInputTitle "")
    else (PlayState.stop, "")
  { state := p.1,
    timecode := vmixMillisecondsToTimecode raw.duration framerate100,
    filename := p.2 }

/-- One successful poll body: parse then normalise
(`_poll`, lines 207-209). -/
def vmixHandleBody (xml : String) (framerate100 : Int) :
    Option NormalisedState :=
  match vmixParseXml xml with
  | Except.ok raw => some (vmixNormaliseState raw framerate100)
  | Except.error _ => none

/-- The XML body of the spec's vMix scenario. -/
def vmixScenarioXml : String :=
  "<vmix><recording>True</recording><streaming>False</streaming><duration>60000</duration><inputs><input title=\"News\" state=\"Running\"/></inputs></vmix>"

set_option maxRecDepth 16384 in
example : vmixParseXml vmixScenarioXml
    = Except.ok ⟨true, false, 60000, some "News", some "Running"⟩ := by
  rfl

set_option maxRecDepth 16384 in
/-- C7: the spec's vMix scenario XML with framerate 50 (given in
hundredths as 5000) normalises to
`{state:'rec', timecode:'00:01:00:00', filename:'News'}`; and in
general `recording == true` forces state `'rec'` with filename
`activeInputTitle || 'Recording'` and the timecode computed from
`duration`. -/
theorem vmix_recording_normalisation :
    vmixHandleBody vmixScenarioXml 5000
      = some ⟨PlayState.rec', "00:01:00:00", "News"⟩ ∧
    ∀ (raw : VMixRawState) (framerate100 : Int), raw.recording = true →
      vmixNormaliseState raw framerate100
        = ⟨PlayState.rec',
           vmixMillisecondsToTimecode raw.duration framerate100,
           jsOrStr raw.activeInputTitle "Recording"⟩ := by
  constructor
  · decide
  · intro raw fr h
    simp [vmixNormaliseState, h]

/-- Witness for C7: the general `recording ⇒ rec` part applied at the raw
state the scenario XML parses to. -/
theorem vmix_recording_normalisation_witness :
    vmixNormaliseState ⟨true, false, 60000, some "News", some "Running"⟩ 5000
      = ⟨PlayState.rec',
         vmixMillisecondsToTimecode 60000 5000, jsOrStr (some "News") "Recording"⟩ :=
  vmix_recording_normalisation.2 ⟨true, false, 60000, some "News", some "Running"⟩
    5000 rfl

/-! ### CasparCG OSC state normalisation (`server/osc-casparcg.js`) -/

/-- The `_stateCache` of `CasparCGClient`
(`server/osc-casparcg.js` lines 310-318).  `timeSeconds` is a float of
seconds pushed by CasparCG; it is embedded exactly in milliseconds
(`timeSecondsMs`), and `fps` exactly in hundredths (`fps100`, cf. the
module comment); `fileName` is initialised in the source but never
written or read afterwards. -/
structure CasparCache : Type where
  filePath : String
  fileName : String
  timeSecondsMs : Int
  frame : Int
  fps100 : Int
  paused : Bool
  foregroundFile : String
deriving DecidableEq, Repr

/-- Last segment of `filename.split(/[/\\]/)`
(`server/osc-casparcg.js` lines 564-567). -/
def lastPathComponent (s : String) : String :=
  String.mk (s.data.foldl
    (fun acc c => if c == '/' || c == '\\' then [] else acc ++ [c]) [])

/-- `CasparCGClient._buildNormalisedState`
(`server/osc-casparcg.js` lines 559-593): filename from
`filePath || foregroundFile || ''` stripped to its basename;
`state = (hasFile && !paused) ? 'play' : 'stop'`;
frame count from the cached `frame`, or from `timeSeconds * fps` when
the frame is zero and time positive; timecode via
`_framesToTimecode`. -/
def casparBuildNormalisedState (framerate100 : Int) (c : CasparCache) :
    NormalisedState :=
  let filename0 :=
    if !(c.filePath == "") then c.filePath
    else if !(c.foregroundFile == "") then c.foregroundFile
    else ""
  let filename :=
    if filename0.data.contains '/' || filename0.data.contains '\\' then
      lastPathComponent filename0
    else filename0
  let hasFile := !(c.filePath == "") || !(c.foregroundFile == "")
  let state := if hasFile && !c.paused then PlayState.play else PlayState.stop
  let fps := if c.fps100 == 0 then framerate100 else c.fps100
  let totalFrames :=
    if c.frame == 0 && c.timeSecondsMs > 0 then
      jsFloorDiv (c.timeSecondsMs * fps) 100000
    else c.frame
  { state := state, timecode := casparFramesToTimecode totalFrames fps,
    filename := filename }

/-- C8: for every cache contents, the normalised state built at bundle
end is `'play'` exactly when a file is present (`filePath` or
`foregroundFile` non-empty) and `paused` is false, and `'stop'`
otherwise; the CasparCG client never produces `'rec'`. -/
theorem caspar_play_iff_file_and_not_paused (framerate100 : Int)
    (c : CasparCache) :
    ((casparBuildNormalisedState framerate100 c).state = PlayState.play ↔
      ((c.filePath ≠ "" ∨ c.foregroundFile ≠ "") ∧ c.paused = false)) ∧
    (casparBuildNormalisedState framerate100 c).state ≠ PlayState.rec' := by
  by_cases h1 : c.filePath = "" <;> by_cases h2 : c.foregroundFile = "" <;>
    by_cases h3 : c.paused <;>
    simp [casparBuildNormalisedState, h1, h2, h3]


/-- Witness for C8: the iff applied at a playing cache. -/
theorem caspar_play_iff_file_and_not_paused_witness :
    (casparBuildNormalisedState 5000
      ⟨"clips/show.mov", "", 0, 250, 0, false, ""⟩).state = PlayState.play :=
  (caspar_play_iff_file_and_not_paused 5000
    ⟨"clips/show.mov", "", 0, 250, 0, false, ""⟩).1.mpr
    ⟨Or.inl (by decide), rfl⟩

/-! ### HyperDeck line protocol (`server/hyperdeck-client.js`) -/

/-- JS `String.trim` on the ASCII range. -/
def jsTrim (s : String) : String :=
  String.mk (((s.data.dropWhile isJsSpace).reverse.dropWhile isJsSpace).reverse)

/-- `normaliseTransportState` (`server/hyperdeck-client.js` lines
56-80): falsy statuses map to `'stop'`; `play|playing` to `'play'`;
`record|recording` to `'rec'`; everything else to `'stop'`.
`toLowerCase().trim()` is rendered as char-wise lowering plus trim. -/
def normaliseTransportState (s : String) : PlayState :=
  if s == "" then PlayState.stop
  else
    let status := jsTrim (String.mk (s.data.map Char.toLower))
    if status == "play" || status == "playing" then PlayState.play
    else if status == "record" || status == "recording" then PlayState.rec'
    else PlayState.stop

/-- Replace the first occurrence of `a` by `b`
(JS `String.replace` with string arguments). -/
def replaceFirstChar (a b : Char) : List Char → List Char
  | [] => []
  | c :: t => if c == a then b :: t else c :: replaceFirstChar a b t

/-- The 8-digit bare-timecode test `^\d{8}$`. -/
def isEightDigits (s : String) : Bool :=
  match s.data with
  | [a, b, c, d, e, f, g, h] =>
    a.isDigit && b.isDigit && c.isDigit && d.isDigit && e.isDigit &&
      f.isDigit && g.isDigit && h.isDigit
  | _ => false

/-- `HHMMSSFF → HH:MM:SS:FF` (lines 439-441); only reached under the
8-digit guard, the fallthrough branch is unreachable. -/
def insertColons (s : String) : String :=
  match s.data with
  | [a, b, c, d, e, f, g, h] => String.mk [a, b, ':', c, d, ':', e, f, ':', g, h]
  | _ => s

/-- `HyperDeckClient._normaliseTimecode` (lines 424-446): falsy input
yields `'00:00:00:00'`; trimmed input matching
`^\d{2}:\d{2}:\d{2}[:;]\d{2}$` has its (unique possible) semicolon
replaced by a colon; a bare 8-digit timecode gets colons inserted;
anything else passes through. -/
def hdNormaliseTimecode (tc : String) : String :=
  if tc == "" then "00:00:00:00"
  else
    let t := jsTrim tc
    if matchesTimecodePattern t then String.mk (replaceFirstChar ';' ':' t.data)
    else if isEightDigits t then insertColons t
    else t

/-- Key-value field collection of a multi-line response.  JS object
assignment overwrites; prepending with first-match lookup has the same
read semantics. -/
def getField (fs : List (String × String)) (k : String) : Option String :=
  fs.lookup k

/-- Reading a field the way the source's `if (fields.x)` truthiness
checks do: a missing or empty value is falsy. -/
def getTruthyField (fs : List (String × String)) (k : String) :
    Option String :=
  match fs.lookup k with
  | some v => if v == "" then none else some v
  | none => none

/-- A parsed multi-line response (`_processLine`, lines 282): status
code, message and accumulated fields. -/
structure HDResponse : Type where
  code : Int
  message : String
  fields : List (String × String)
deriving DecidableEq, Repr

/-- The fields of `HyperDeckClient` that the response path reads and
writes: the current partial response, the current normalised state
(initially `stop / 00:00:00:00 / ''`, lines 154-158), the active slot
(initially 1, line 161), plus the observable outputs: emitted state
events and sent commands, in order. -/
structure HDClientState : Type where
  currentResponse : Option HDResponse
  currentState : NormalisedState
  activeSlot : Int
  emitted : List NormalisedState
  sent : List String
deriving DecidableEq, Repr

def hdInitial : HDClientState :=
  { currentResponse := none,
    currentState := ⟨PlayState.stop, "00:00:00:00", ""⟩,
    activeSlot := 1, emitted := [], sent := [] }

/-- `_stateChanged` (lines 455-461). -/
def hdStateChanged (cur new : NormalisedState) : Bool :=
  !(new.state == cur.state) || !(new.timecode == cur.timecode) ||
    !(new.filename == cur.filename)

/-- The `slot info` command string sent on slot changes (line 377). -/
def slotCmd (n : Int) : String := "slot info: slot id: " ++ toString n

/-- `_handleTransportInfo` (lines 356-389): normalise `status`; prefer
`display_timecode` over `timecode`; on a parsed `active_slot`, remember
a changed slot and request slot info (also requested when the slot is
unchanged but no filename is known yet); emit the new state only when
it differs. -/
def hdHandleTransportInfo (m : HDClientState)
    (fields : List (String × String)) : HDClientState :=
  let new1 :=
    match getTruthyField fields "status" with
    | some v => { m.currentState with state := normaliseTransportState v }
    | none => m.currentState
  let new2 :=
    match getTruthyField fields "display_timecode" with
    | some v => { new1 with timecode := hdNormaliseTimecode v }
    | none =>
      match getTruthyField fields "timecode" with
      | some v => { new1 with timecode := hdNormaliseTimecode v }
      | none => new1
  let slotRes : Int × List String :=
    match getTruthyField fields "active_slot" with
    | some v =>
      match jsParseInt v with
      | some ns =>
        if !(ns == m.activeSlot) then (ns, [slotCmd ns])
        else if m.currentState.filename == "" then
          (m.activeSlot, [slotCmd m.activeSlot])
        else (m.activeSlot, [])
      | none => (m.activeSlot, [])
    | none => (m.activeSlot, [])
  let changed := hdStateChanged m.currentState new2
  { m with
    currentState := if changed then new2 else m.currentState,
    activeSlot := slotRes.1,
    sent := m.sent ++ slotRes.2,
    emitted := m.emitted ++ (if changed then [new2] else []) }

/-- `_handleSlotInfo` (lines 402-414): `clip_name` populates the
filename; emit only on change. -/
def hdHandleSlotInfo (m : HDClientState)
    (fields : List (String × String)) : HDClientState :=
  let new1 :=
    match getTruthyField fields "clip_name" with
    | some v => { m.currentState with filename := v }
    | none => m.currentState
  let changed := hdStateChanged m.currentState new1
  { m with
    currentState := if changed then new1 else m.currentState,
    emitted := m.emitted ++ (if changed then [new1] else []) }

/-- `_handleResponse` (lines 316-341): transport info on codes 208/508,
slot info on 202/502; 209 and all other codes only log. -/
def hdHandleResponse (m : HDClientState) (r : HDResponse) : HDClientState :=
  if r.code == 208 || r.code == 508 then hdHandleTransportInfo m r.fields
  else if r.code == 202 || r.code == 502 then hdHandleSlotInfo m r.fields
  else m

/-- The regex `^(\d{3})\s*(.*)` of `_processLine` (line 268): three
leading digits, optional whitespace, message. -/
def hdParseCodeLine (l : List Char) : Option (Int × String) :=
  match l with
  | a :: b :: c :: rest =>
    if a.isDigit && b.isDigit && c.isDigit then
      some (100 * digitVal a + 10 * digitVal b + digitVal c,
            String.mk (rest.dropWhile isJsSpace))
    else none
  | _ => none

/-- The regex `^([^:]+):\s*(.*)$` of `_processLine` (line 297): split at
the first colon, requiring a non-empty key part. -/
def splitFirstColon (l : List Char) : Option (List Char × List Char) :=
  let pre := l.takeWhile (fun c => !(c == ':'))
  match l.drop pre.length with
  | ':' :: rest => if pre.isEmpty then none else some (pre, rest)
  | _ => none

/-- Collapse runs of whitespace, emitting one `'_'` per run
(`replace(/\s+/g, '_')`, line 299).  The flag records whether the
previous character was whitespace. -/
def collapseSpacesAux : Bool → List Char → List Char
  | _, [] => []
  | prevSpace, c :: t =>
    if isJsSpace c then
      if prevSpace then collapseSpacesAux true t
      else '_' :: collapseSpacesAux true t
    else c :: collapseSpacesAux false t

/-- `fieldMatch[1].trim().toLowerCase().replace(/\s+/g, '_')`. -/
def hdKeyTransform (s : String) : String :=
  String.mk (collapseSpacesAux false ((jsTrim s).data.map Char.toLower))

/-- `_processLine` (lines 266-305): a code line either acknowledges
(code 200 or `< 200`, nothing happens) or starts a new multi-line
response; a blank line closes and dispatches the pending response; any
other line inside a response adds a `key: value` field. -/
def hdProcessLine (m : HDClientState) (line : String) : HDClientState :=
  match hdParseCodeLine line.data with
  | some (code, msg) =>
    if code == 200 || code < 200 then m
    else { m with currentResponse := some ⟨code, msg, []⟩ }
  | none =>
    if jsTrim line == "" then
      match m.currentResponse with
      | some r => { hdHandleResponse m r with currentResponse := none }
      | none => m
    else
      match m.currentResponse with
      | some r =>
        match splitFirstColon line.data with
        | some (pre, rest) =>
          { m with currentResponse := some { r with
              fields := (hdKeyTransform (String.mk pre),
                         jsTrim (String.mk rest)) :: r.fields } }
        | none => m
      | none => m

/-- Feeding a sequence of complete lines (`_handleData` splits the
stream on `\r?\n`; a chunk ending in a newline yields exactly these
lines). -/
def hdProcessLines (m : HDClientState) (lines : List String) : HDClientState :=
  lines.foldl hdProcessLine m

/-- The spec's HyperDeck scenario input lines. -/
def hdScenarioLines : List String :=
  ["208 transport info:", "status: play", "display timecode: 01:23:45:12",
   "active slot: 1", "", "202 slot info:", "slot id: 1",
   "clip name: clip.mov", ""]

/-- C4 (counterexample): the scenario emits two state events, not one —
the transport-info response already differs from the initial state and
is emitted with the filename still empty, before the slot-info response
arrives. -/
theorem hyperdeck_scenario_two_emissions :
    (hdProcessLines hdInitial hdScenarioLines).emitted.length = 2 := by
  decide

/-- C4 (amended): the scenario emits exactly the two state events
`{play, 01:23:45:12, ''}` (at the end of the transport-info response)
and `{play, 01:23:45:12, clip.mov}` (at the end of the slot-info
response); the last emitted event is the one the claim describes. -/
theorem hyperdeck_scenario_emissions :
    (hdProcessLines hdInitial hdScenarioLines).emitted
      = [⟨PlayState.play, "01:23:45:12", ""⟩,
         ⟨PlayState.play, "01:23:45:12", "clip.mov"⟩] := by
  decide

/-! ### Ember+ provider (`server/emberplus-provider.js`) -/

/-- `STATE_TO_INDEX[s] ?? STATE_TO_INDEX.offline` (lines 70-75 and
225): the normative enumeration order `stop=0, play=1, rec=2,
offline=3`; unknown strings fall back to the offline index. -/
def stateToIndex (s : String) : Nat :=
  if s == "stop" then 0
  else if s == "play" then 1
  else if s == "rec" then 2
  else if s == "offline" then 3
  else 3

/-- The per-device parameter values held in the tree
(`_buildTree`, lines 344-409): `State` (enum index), `Timecode`,
`Filename`, `Connected`, `Type`. -/
structure EmberDeviceNodes : Type where
  stateVal : Nat
  timecodeVal : String
  filenameVal : String
  connectedVal : Bool
  typeVal : String
deriving DecidableEq, Repr

/-- The provider state: the `_isRunning` flag (the source always pairs
it with a live `_server`, so one flag models the
`!this._isRunning || !this._server` guard) and the `_deviceNodes` map
from device id to tree-node values. -/
structure EmberProvider : Type where
  isRunning : Bool
  deviceNodes : Nat → Option EmberDeviceNodes

/-- One per-parameter Ember+ update pushed by `this._server.update`.
Modelled from the `emberplus-connection` library contract the provider
relies on: `update(node, {value})` stores the new value in the node's
contents and notifies every consumer once. -/
inductive EmberUpdate : Type where
  | stateU (v : Nat) : EmberUpdate
  | timecodeU (v : String) : EmberUpdate
  | filenameU (v : String) : EmberUpdate
  | connectedU (v : Bool) : EmberUpdate
deriving DecidableEq, Repr

/-- The four parameters of a device node. -/
inductive EmberParam : Type where
  | pState : EmberParam
  | pTimecode : EmberParam
  | pFilename : EmberParam
  | pConnected : EmberParam
deriving DecidableEq, Repr

def updKind : EmberUpdate → EmberParam
  | EmberUpdate.stateU _ => EmberParam.pState
  | EmberUpdate.timecodeU _ => EmberParam.pTimecode
  | EmberUpdate.filenameU _ => EmberParam.pFilename
  | EmberUpdate.connectedU _ => EmberParam.pConnected

/-- The partial state accepted by `updateDevice` (lines 203-211): each
field optional. -/
structure EmberPartialState : Type where
  state : Option String
  timecode : Option String
  filename : Option String
  connected : Option Bool

/-- One field of the `updateDevice` body: when the field is present and
differs from the current node value, store the target and push one
update; otherwise leave the node value and push nothing. -/
def updField {α : Type} [BEq α] (mk : α → EmberUpdate) (target : Option α)
    (v : α) : α × List EmberUpdate :=
  match target with
  | some t => if !(v == t) then (t, [mk t]) else (v, [])
  | none => (v, [])

/-- `EmberPlusProvider.updateDevice` (lines 212-251): no-op unless
running; unknown ids are ignored; each present field is compared
against the current parameter value and pushed only on change, in the
order state, timecode, filename, connected. -/
def emberUpdateDevice (p : EmberProvider) (id : Nat)
    (s : EmberPartialState) : EmberProvider × List EmberUpdate :=
  if !p.isRunning then (p, [])
  else
    match p.deviceNodes id with
    | none => (p, [])
    | some n =>
      let rs := updField EmberUpdate.stateU (s.state.map stateToIndex) n.stateVal
      let rt := updField EmberUpdate.timecodeU s.timecode n.timecodeVal
      let rf := updField EmberUpdate.filenameU s.filename n.filenameVal
      let rc := updField EmberUpdate.connectedU s.connected n.connectedVal
      ({ p with deviceNodes := fun j =>
          if j == id then
            some { n with stateVal := rs.1, timecodeVal := rt.1,
                          filenameVal := rf.1, connectedVal := rc.1 }
          else p.deviceNodes j },
       rs.2 ++ rt.2 ++ rf.2 ++ rc.2)

/-- Number of updates for one parameter in an update list. -/
def countParam (l : List EmberUpdate) (k : EmberParam) : Nat :=
  (l.filter (fun u => updKind u == k)).length

theorem countParam_append (a b : List EmberUpdate) (k : EmberParam) :
    countParam (a ++ b) k = countParam a k + countParam b k := by
  simp [countParam, List.filter_append]

/-- A field step pushes nothing or exactly one update. -/
theorem updField_single {α : Type} [BEq α] (mk : α → EmberUpdate)
    (target : Option α) (v : α) :
    (updField mk target v).2 = [] ∨ ∃ t, (updField mk target v).2 = [mk t] := by
  cases target with
  | none => exact Or.inl rfl
  | some t =>
    by_cases h : v == t
    · simp [updField, h]
    · exact Or.inr ⟨t, by simp [updField, h]⟩

/-- After a field step, running the same step again pushes nothing. -/
theorem updField_stable {α : Type} [BEq α] [LawfulBEq α]
    (mk : α → EmberUpdate) (target : Option α) (v : α) :
    (updField mk target (updField mk target v).1).2 = [] := by
  cases target with
  | none => simp [updField]
  | some t => by_cases h : v == t <;> simp [updField, h]

/-- C9: `updateDevice` is idempotent per parameter: a call pushes at
most one update per parameter; repeating the same call pushes nothing
(each present field now equals the stored parameter value); and calls
with ids not in the tree do nothing. -/
theorem ember_updateDevice_idempotent (p : EmberProvider) (id : Nat)
    (s : EmberPartialState) :
    ((emberUpdateDevice (emberUpdateDevice p id s).1 id s).2 = []) ∧
    (∀ k : EmberParam, countParam (emberUpdateDevice p id s).2 k ≤ 1) ∧
    (p.deviceNodes id = none → emberUpdateDevice p id s = (p, [])) := by
  refine ⟨?_, ?_, ?_⟩
  · by_cases hr : p.isRunning
    · cases hn : p.deviceNodes id with
      | none => simp [emberUpdateDevice, hr, hn]
      | some n =>
        simp [emberUpdateDevice, hr, hn, updField_stable]
    · simp [emberUpdateDevice, hr]
  · intro k
    by_cases hr : p.isRunning
    · cases hn : p.deviceNodes id with
      | none => simp [emberUpdateDevice, hr, hn, countParam]
      | some n =>
        simp only [emberUpdateDevice, hr, hn, Bool.not_true, if_false]
        rcases updField_single EmberUpdate.stateU (s.state.map stateToIndex)
            n.stateVal with hs | ⟨ts, hs⟩ <;>
          rcases updField_single EmberUpdate.timecodeU s.timecode
              n.timecodeVal with ht | ⟨tt, ht⟩ <;>
          rcases updField_single EmberUpdate.filenameU s.filename
              n.filenameVal with hf | ⟨tf, hf⟩ <;>
          rcases updField_single EmberUpdate.connectedU s.connected
              n.connectedVal with hc | ⟨tc, hc⟩ <;>
          rw [hs, ht, hf, hc] <;> cases k <;>
          simp [countParam, updKind]
    · simp [emberUpdateDevice, hr, countParam]
  · intro hn
    by_cases hr : p.isRunning <;> simp [emberUpdateDevice, hr, hn]

/-- Witness for C9: a one-device tree updated twice with the same
partial state; an id outside the tree does nothing. -/
theorem ember_updateDevice_idempotent_witness :
    ((emberUpdateDevice (emberUpdateDevice
        ⟨true, fun j => if j == 1 then
          some ⟨0, "00:00:00:00", "", false, "hyperdeck"⟩ else none⟩
        1 ⟨some "play", some "01:00:00:00", some "a.mov", some true⟩).1
        1 ⟨some "play", some "01:00:00:00", some "a.mov", some true⟩).2 = []) ∧
    (emberUpdateDevice
        ⟨true, fun j => if j == 1 then
          some ⟨0, "00:00:00:00", "", false, "hyperdeck"⟩ else none⟩
        7 ⟨some "play", some "01:00:00:00", some "a.mov", some true⟩
      = (⟨true, fun j => if j == 1 then
          some ⟨0, "00:00:00:00", "", false, "hyperdeck"⟩ else none⟩, [])) :=
  ⟨(ember_updateDevice_idempotent _ 1 _).1,
   (ember_updateDevice_idempotent _ 7 _).2.2 rfl⟩

/-- A device entry handed to `start` by the server
(`server/server.js` lines 546-550): `{id, name, type}`. -/
structure EmberDevice : Type where
  id : Nat
  name : String
  type : String
deriving DecidableEq, Repr

/-- The parameter values `_buildTree` stores for one device
(`server/emberplus-provider.js` lines 344-409): `State` starts at
`STATE_TO_INDEX.stop`, `Timecode` at `'00:00:00:00'`, `Filename` empty,
`Connected` false, `Type` at `device.type || 'unknown'`. -/
def emberInitNodes (d : EmberDevice) : EmberDeviceNodes :=
  { stateVal := stateToIndex "stop", timecodeVal := "00:00:00:00",
    filenameVal := "", connectedVal := false,
    typeVal := jsOrStr (some d.type) "unknown" }

/-- One `this._deviceNodes.set(device.id, ...)` of the build loop
(line 431). -/
def emberAddNode (acc : Nat → Option EmberDeviceNodes) (d : EmberDevice) :
    Nat → Option EmberDeviceNodes :=
  fun j => if j == d.id then some (emberInitNodes d) else acc j

/-- The `_deviceNodes` map after `_buildTree(devices)`. -/
def emberBuildNodes (devices : List EmberDevice) :
    Nat → Option EmberDeviceNodes :=
  devices.foldl emberAddNode (fun _ => none)

/-- `EmberPlusProvider.start(devices)` (lines 133-177): a no-op when
already running, otherwise builds the tree and raises `_isRunning`. -/
def emberStart (p : EmberProvider) (devices : List EmberDevice) :
    EmberProvider :=
  if p.isRunning then p
  else { isRunning := true, deviceNodes := emberBuildNodes devices }

/-- A freshly constructed provider (lines 105-125): not running, empty
device map. -/
def emberInitialProvider : EmberProvider :=
  { isRunning := false, deviceNodes := fun _ => none }

/-- Every node the build loop ever stores has `State` value 0. -/
theorem emberBuildNodes_stateVal_aux (devices : List EmberDevice) :
    ∀ acc : Nat → Option EmberDeviceNodes,
      (∀ j n, acc j = some n → n.stateVal = 0) →
      ∀ j n, devices.foldl emberAddNode acc j = some n → n.stateVal = 0 := by
  induction devices with
  | nil => intro acc hacc j n h; exact hacc j n h
  | cons d ds ih =>
    intro acc hacc j n h
    refine ih (emberAddNode acc d) ?_ j n h
    intro j' n' h'
    unfold emberAddNode at h'
    by_cases hj : (j' == d.id) = true
    · rw [if_pos hj] at h'
      cases h'
      rfl
    · rw [if_neg hj] at h'
      exact hacc j' n' h'

/-- The build loop never erases an entry. -/
theorem emberBuildNodes_mono (devices : List EmberDevice) :
    ∀ acc : Nat → Option EmberDeviceNodes, ∀ j,
      (acc j).isSome = true →
      ((devices.foldl emberAddNode acc) j).isSome = true := by
  induction devices with
  | nil => intro acc j h; exact h
  | cons d ds ih =>
    intro acc j h
    refine ih (emberAddNode acc d) j ?_
    unfold emberAddNode
    by_cases hj : (j == d.id) = true
    · rw [if_pos hj]; rfl
    · rw [if_neg hj]; exact h

/-- Every configured device id is present after the build loop. -/
theorem emberBuildNodes_mem (devices : List EmberDevice) :
    ∀ acc : Nat → Option EmberDeviceNodes, ∀ d ∈ devices,
      ((devices.foldl emberAddNode acc) d.id).isSome = true := by
  induction devices with
  | nil => intro acc d h; cases h
  | cons e ds ih =>
    intro acc d h
    rcases List.mem_cons.mp h with rfl | h'
    · refine emberBuildNodes_mono ds (emberAddNode acc d) d.id ?_
      unfold emberAddNode
      simp
    · exact ih (emberAddNode acc e) d h'

/-- C10: after `start(devices)` and before any `updateDevice` call, each
configured device's `State` parameter in the Ember+ tree has value 0
(the enum index of `'stop'`), while the aggregator initialises every
`DeviceState` to `'offline'` (enum index 3): Ember+ consumers initially
read `stop` for devices the device model reports as `offline`. -/
theorem ember_initial_state_stop (devices : List EmberDevice)
    (d : EmberDevice) (hd : d ∈ devices) :
    (∃ n, (emberStart emberInitialProvider devices).deviceNodes d.id = some n
      ∧ n.stateVal = stateToIndex "stop") ∧
    initialDeviceState.state = PlayState.offline ∧
    stateToIndex "offline" = 3 ∧ stateToIndex "stop" ≠ stateToIndex "offline" := by
  refine ⟨?_, rfl, rfl, by decide⟩
  have hrun : emberStart emberInitialProvider devices
      = { isRunning := true, deviceNodes := emberBuildNodes devices } := rfl
  rw [hrun]
  have hsome := emberBuildNodes_mem devices (fun _ => none) d hd
  obtain ⟨n, hn⟩ := Option.isSome_iff_exists.mp hsome
  refine ⟨n, hn, ?_⟩
  exact emberBuildNodes_stateVal_aux devices (fun _ => none)
    (fun _ _ h => by cases h) d.id n hn

/-- Witness for C10: a one-device configuration. -/
theorem ember_initial_state_stop_witness :
    ∃ n, (emberStart emberInitialProvider
        [⟨1, "Deck A", "hyperdeck"⟩]).deviceNodes 1 = some n
      ∧ n.stateVal = stateToIndex "stop" :=
  (ember_initial_state_stop [⟨1, "Deck A", "hyperdeck"⟩]
    ⟨1, "Deck A", "hyperdeck"⟩ (List.mem_singleton.mpr rfl)).1
